import Mathlib

/-!
Verification development for the personalised-tutor lesson API.

The embedded program consists of two Python source files:
  * `app.py` with the Flask handler `generate` for POST /api/generate
    (validation of the JSON body, delegation to the pipeline, mapping of
    outcomes to HTTP responses);
  * `itinerary_generator2.py` with `build_prompt` (pure rendering of the
    lesson prompt) and `generate_lesson` (prompt rendering plus one network
    call whose failures are converted to an error string).

JSON values are embedded as the inductive type `JVal`; the relevant slice
of Python semantics (dict get, str strip, int coercion, str join,
truthiness, exceptions) is embedded explicitly with `Except` for raised
exceptions.  The network call is abstracted by an oracle `NetOutcome`
standing for the outcome of the chat-completion request: either the
returned content text or a raised transport/provider exception message.
-/

/-- A JSON value as produced by parsing the request body. -/
inductive JVal where
  | null
  | boolean (b : Bool)
  | intVal (n : Int)
  | floatVal (q : ℚ)
  | strVal (s : String)
  | arr (elems : List JVal)
  | obj (fields : List (String × JVal))

/-- The Python type name of a value, used in exception messages. -/
def JVal.typeName : JVal → String
  | .null => "NoneType"
  | .boolean _ => "bool"
  | .intVal _ => "int"
  | .floatVal _ => "float"
  | .strVal _ => "str"
  | .arr _ => "list"
  | .obj _ => "dict"

/-- Python truthiness of a JSON value (`if not data` tests). -/
def JVal.isTruthy : JVal → Bool
  | .null => false
  | .boolean b => b
  | .intVal n => n != 0
  | .floatVal q => q != 0
  | .strVal s => s != ""
  | .arr xs => !xs.isEmpty
  | .obj kvs => !kvs.isEmpty

/-- Whether a value is JSON null (Python `None`). -/
def JVal.isNull : JVal → Bool
  | .null => true
  | _ => false

/-- Whether a value is a Python `str`. -/
def isStr : JVal → Bool
  | JVal.strVal _ => true
  | _ => false

/-- Exceptions that the embedded Python fragments can raise. -/
inductive PyErr where
  | attrErr (m : String)
  | typeErr (m : String)
  | valueErr (m : String)

/-- The `str(e)` form of an exception, used in the 500 envelope. -/
def PyErr.message : PyErr → String
  | .attrErr m => m
  | .typeErr m => m
  | .valueErr m => m

/-- First binding of a key in an association list (Python dicts from JSON
have unique keys, so first match is the dict lookup). -/
def dictFind (kvs : List (String × JVal)) (k : String) : Option JVal :=
  match kvs.find? (fun kv => kv.1 == k) with
  | some kv => some kv.2
  | none => none

/-- Dict lookup with a default value, `d.get(k, dflt)` on an actual dict. -/
def dictGetD (kvs : List (String × JVal)) (k : String) (dflt : JVal) : JVal :=
  match dictFind kvs k with
  | some v => v
  | none => dflt

/-- Python `data.get(k, dflt)`: dict lookup with default; raises
AttributeError when `data` is not a dict. -/
def pyGet (data : JVal) (k : String) (dflt : JVal) : Except PyErr JVal :=
  match data with
  | JVal.obj kvs => Except.ok (dictGetD kvs k dflt)
  | v => Except.error (PyErr.attrErr (v.typeName ++ " object has no attribute get"))

/-- Removal of leading and trailing whitespace of a string, the behaviour
of Python `str.strip()` with no argument (ASCII whitespace; the exotic
Unicode space characters CPython also strips are not modelled). -/
def stripStr (s : String) : String :=
  ⟨((s.data.dropWhile Char.isWhitespace).reverse.dropWhile Char.isWhitespace).reverse⟩

/-- Python `v.strip()`: strips surrounding whitespace of a string; raises
AttributeError when `v` is not a string. -/
def pyStrip (v : JVal) : Except PyErr String :=
  match v with
  | JVal.strVal s => Except.ok (stripStr s)
  | v => Except.error (PyErr.attrErr (v.typeName ++ " object has no attribute strip"))

/-- Truncation toward zero of a rational, the behaviour of Python
`int(float)` on the exact value of the float. -/
def pyTruncRat (q : ℚ) : Int :=
  if 0 ≤ q.num then Int.ofNat (q.num.natAbs / q.den)
  else - Int.ofNat (q.num.natAbs / q.den)

/-- Value of a run of decimal digits accumulated left to right; `none` as
soon as a non-digit character appears. -/
def digitsValAux : List Char → Nat → Option Nat
  | [], acc => some acc
  | c :: cs, acc => if c.isDigit then digitsValAux cs (10 * acc + (c.toNat - 48)) else none

/-- Python `int(s)` on a string: surrounding whitespace is allowed, then an
optional sign and a non-empty digit run.  (Underscore digit grouping,
accepted by CPython, is not modelled; no claim depends on it.) -/
def pyIntOfString (s : String) : Except PyErr Int :=
  let t := (stripStr s).data
  let core : List Char :=
    match t with
    | '-' :: cs => cs
    | '+' :: cs => cs
    | cs => cs
  let neg : Bool := match t with | '-' :: _ => true | _ => false
  match (if core.isEmpty then none else digitsValAux core 0) with
  | some n => Except.ok (if neg then -(n : Int) else (n : Int))
  | none => Except.error (PyErr.valueErr ("invalid literal for int with base 10: " ++ s))

/-- Python `int(v)`: identity on ints, bool as 0/1, truncation on floats,
parsing on strings, TypeError otherwise. -/
def pyInt (v : JVal) : Except PyErr Int :=
  match v with
  | JVal.intVal n => Except.ok n
  | JVal.boolean b => Except.ok (if b then 1 else 0)
  | JVal.floatVal q => Except.ok (pyTruncRat q)
  | JVal.strVal s => pyIntOfString s
  | v => Except.error (PyErr.typeErr ("int argument must be a string or a number, not " ++ v.typeName))

/-- Extracts the strings of a list of values, failing with TypeError at the
first non-string element, as Python `str.join` does while iterating. -/
def pyStrList : List JVal → Except PyErr (List String)
  | [] => Except.ok []
  | JVal.strVal s :: xs =>
      match pyStrList xs with
      | Except.ok ss => Except.ok (s :: ss)
      | Except.error e => Except.error e
  | x :: _ => Except.error (PyErr.typeErr ("sequence item: expected str instance, " ++ x.typeName ++ " found"))

/-- Python `sep.join(xs)`. -/
def pyJoin (sep : String) (xs : List JVal) : Except PyErr String :=
  match pyStrList xs with
  | Except.ok ss => Except.ok (String.intercalate sep ss)
  | Except.error e => Except.error e

/-! ## itinerary_generator2.py -/

/-- Default model identifier (module constant `DEFAULT_MODEL`). -/
def DEFAULT_MODEL : String := "gpt-oss:120b-cloud"

/-- Fine-tuned model identifier (module constant `FINETUNED_MODEL`). -/
def FINETUNED_MODEL : String := "gpt-oss:120b-cloud"

/-- Instruction block of the Visuel entry of `style_instructions`. -/
def visuelInstruction : String :=
  "Utilisez des diagrammes, schémas, cartes mentales et exemples visuels. Structurez clairement avec des couleurs et des icônes."

/-- The fixed style table of `build_prompt` (dict literal `style_instructions`). -/
def style_instructions : List (String × String) :=
  [("Visuel", visuelInstruction),
   ("Auditif", "Expliquez avec des analogies, répétitions et exemples narratifs. Suggérez des mnémoniques et des rythmes."),
   ("Kinesthésique", "Proposez des exercices pratiques, des expériences et des manipulations. Incluez des activités interactives."),
   ("Lecture/Écriture", "Fournissez des textes détaillés, des listes et des résumés écrits. Encouragez la prise de notes.")]

/-- Lookup `style_instructions.get(learning_style, style_instructions["Visuel"])`. -/
def style_instruction_of (learning_style : String) : String :=
  match style_instructions.find? (fun p => p.1 == learning_style) with
  | some p => p.2
  | none => visuelInstruction

/-- The duration sentence: appended only when duration is present and
positive (Python `if duration and duration > 0`). -/
def duration_text_of : Option Int → String
  | none => ""
  | some d => if 0 < d then "\nDurée de la session: " ++ toString d ++ " minutes." else ""

/-- The f-string of `build_prompt` rendered with an already-computed
topics text. -/
def renderPrompt (subject level learning_style topics_text : String) (dur : Option Int) : String :=
  "Vous êtes un tuteur éducatif expert, spécialisé dans l\x27enseignement personnalisé. " ++
  "Créez une leçon détaillée et engageante pour un élève de niveau " ++ level ++ " en " ++ subject ++ ". " ++
  "Thèmes à couvrir: " ++ topics_text ++ "." ++
  duration_text_of dur ++ "\n\n" ++
  "Style d\x27apprentissage de l\x27élève: " ++ learning_style ++ "\n" ++
  style_instruction_of learning_style ++ "\n\n" ++
  "La leçon doit inclure:\n" ++
  "📚 **Introduction**: Contextualiser le sujet et expliquer son importance\n" ++
  "🎯 **Objectifs d\x27apprentissage**: Ce que l\x27élève saura faire après la leçon\n" ++
  "📖 **Contenu principal**: Explications claires avec exemples concrets\n" ++
  "💡 **Exemples pratiques**: Applications réelles et exercices guidés\n" ++
  "✏️ **Exercices**: Questions de compréhension et problèmes à résoudre\n" ++
  "🎓 **Résumé**: Points clés à retenir\n" ++
  "🚀 **Pour aller plus loin**: Ressources et suggestions d\x27approfondissement\n\n" ++
  "Formatez la leçon de manière claire et structurée avec des sections bien définies. " ++
  "Adaptez le vocabulaire et les exemples au niveau de l\x27élève. " ++
  "Rendez la leçon interactive et motivante."

/-- `build_prompt`: computes the topics text (`", ".join(topics) if topics
else "général"`, so a TypeError of join on a non-string element
propagates) and renders the prompt template. -/
def build_prompt (subject level learning_style : String) (topics : List JVal) (dur : Option Int) : Except PyErr String :=
  match (if topics.isEmpty then Except.ok "général" else pyJoin ", " topics) with
  | Except.error e => Except.error e
  | Except.ok topics_text => Except.ok (renderPrompt subject level learning_style topics_text dur)

/-- Outcome of the chat-completion request issued by `generate_lesson`:
either the content text of the response, or the message of a raised
transport/provider/response-shape exception. -/
inductive NetOutcome where
  | ok (content : String)
  | fail (msg : String)

/-- `generate_lesson`: chooses the model (`model_name or DEFAULT_MODEL`),
builds the prompt (outside the try block, so its exceptions propagate),
then performs the network call whose own exceptions are caught and turned
into the string `"Erreur API: " + str(e)` returned as content. -/
def generate_lesson (net : NetOutcome) (subject level learning_style : String)
    (topics : List JVal) (dur : Option Int) (model_name : JVal) : Except PyErr String :=
  let _chosen : JVal := if model_name.isTruthy then model_name else JVal.strVal DEFAULT_MODEL
  match build_prompt subject level learning_style topics dur with
  | Except.error e => Except.error e
  | Except.ok _prompt =>
      match net with
      | NetOutcome.ok content => Except.ok content
      | NetOutcome.fail msg => Except.ok ("Erreur API: " ++ msg)

/-! ## app.py -/

/-- An HTTP response: status code and JSON body. -/
structure Response where
  status : Nat
  body : JVal

/-- A 400 response `jsonify({"error": msg}), 400`. -/
def err400resp (msg : String) : Response :=
  ⟨400, JVal.obj [("error", JVal.strVal msg)]⟩

/-- The local variables bound by lines 64 to 69 of the handler: the three
stripped string fields and the raw topics, duration and model values.
Binding them happens before any of the field validations, so a strip
failure on a non-string field raises before any 400 is produced. -/
structure Fields where
  subject : String
  level : String
  learning_style : String
  topics : JVal
  durationV : JVal
  modelV : JVal

/-- Lines 64 to 69 of the handler: the six `data.get` calls and the three
`.strip()` calls, in source order, any raised exception propagating. -/
def extractFields (data : JVal) : Except PyErr Fields :=
  match pyGet data "subject" (JVal.strVal "") with
  | Except.error e => Except.error e
  | Except.ok sv =>
    match pyStrip sv with
    | Except.error e => Except.error e
    | Except.ok subject =>
      match pyGet data "level" (JVal.strVal "") with
      | Except.error e => Except.error e
      | Except.ok lv =>
        match pyStrip lv with
        | Except.error e => Except.error e
        | Except.ok level =>
          match pyGet data "learning_style" (JVal.strVal "") with
          | Except.error e => Except.error e
          | Except.ok stv =>
            match pyStrip stv with
            | Except.error e => Except.error e
            | Except.ok learning_style =>
              match pyGet data "topics" (JVal.arr []) with
              | Except.error e => Except.error e
              | Except.ok topicsV =>
                match pyGet data "duration" JVal.null with
                | Except.error e => Except.error e
                | Except.ok durV =>
                  match pyGet data "model" (JVal.strVal DEFAULT_MODEL) with
                  | Except.error e => Except.error e
                  | Except.ok modelV =>
                    Except.ok ⟨subject, level, learning_style, topicsV, durV, modelV⟩

/-- Line 81 condition, as a validity predicate: `topics` is a list and is
non-empty (the source tests its negation `not isinstance(topics, list) or
len(topics) == 0`). -/
def topicsValid : JVal → Bool
  | JVal.arr ts => !decide (ts.length = 0)
  | _ => false

/-- Lines 85 to 91: the duration block.  A JSON null duration (absent key
or explicit null) skips the check; otherwise `int()` coercion, with
TypeError or ValueError caught and mapped to the not-a-number message, then
the range check.  Returns the normalized duration used afterwards. -/
def durCheck (v : JVal) : Except String (Option Int) :=
  if v.isNull then Except.ok none
  else
    match pyInt v with
    | Except.error _ => Except.error "La durée doit être un nombre valide"
    | Except.ok d =>
        if d < 15 || 180 < d then Except.error "La durée doit être entre 15 et 180 minutes"
        else Except.ok (some d)

/-- The echoed duration field of the success envelope: the normalized
integer, or null when absent. -/
def durEcho : Option Int → JVal
  | none => JVal.null
  | some d => JVal.intVal d

/-- Lines 72 to 112 of the handler: the field validations in source order,
each returning its 400 on failure, then the pipeline call and the success
envelope; an exception of the pipeline call propagates. -/
def afterExtract (net : NetOutcome) (f : Fields) : Except PyErr Response :=
  if f.subject = "" then Except.ok (err400resp "Le sujet est requis")
  else if f.level = "" then Except.ok (err400resp "Le niveau est requis")
  else if f.learning_style = "" then Except.ok (err400resp "Le style d\x27apprentissage est requis")
  else
    match f.topics with
    | JVal.arr ts =>
      if ts.length = 0 then Except.ok (err400resp "Veuillez sélectionner au moins un thème")
      else
        match durCheck f.durationV with
        | Except.error msg => Except.ok (err400resp msg)
        | Except.ok dOpt =>
          match generate_lesson net f.subject f.level f.learning_style ts dOpt f.modelV with
          | Except.error e => Except.error e
          | Except.ok lesson =>
            Except.ok ⟨200, JVal.obj
              [("success", JVal.boolean true),
               ("lesson", JVal.strVal lesson),
               ("subject", JVal.strVal f.subject),
               ("level", JVal.strVal f.level),
               ("learning_style", JVal.strVal f.learning_style),
               ("topics", JVal.arr ts),
               ("duration", durEcho dOpt)]⟩
    | _ => Except.ok (err400resp "Veuillez sélectionner au moins un thème")

/-- The body of the try block of the handler (lines 58 to 112): the
truthiness test `if not data` first, then field extraction, then the
validations and the pipeline call. -/
def generateBody (net : NetOutcome) (data : JVal) : Except PyErr Response :=
  if data.isTruthy then
    match extractFields data with
    | Except.error e => Except.error e
    | Except.ok f => afterExtract net f
  else Except.ok (err400resp "Aucune donnée fournie")

/-- The handler `generate` of POST /api/generate: runs the try block and
maps any uncaught exception to the 500 error envelope (lines 114 to 119). -/
def generate (net : NetOutcome) (data : JVal) : Response :=
  match generateBody net data with
  | Except.ok r => r
  | Except.error e =>
      ⟨500, JVal.obj
        [("success", JVal.boolean false),
         ("error", JVal.strVal ("Erreur lors de la génération: " ++ e.message))]⟩

/-- The end-to-end example request of the specification. -/
def exampleRequest : JVal :=
  JVal.obj
    [("subject", JVal.strVal "Mathématiques"),
     ("level", JVal.strVal "Lycée"),
     ("learning_style", JVal.strVal "Visuel"),
     ("topics", JVal.arr [JVal.strVal "Algèbre"]),
     ("duration", JVal.intVal 60)]

/-! ## Helper lemmas -/

theorem generate_eq_of_body (net : NetOutcome) (data : JVal) (r : Response)
    (h : generateBody net data = Except.ok r) : generate net data = r := by
  simp [generate, h]

theorem generate_eq_500 (net : NetOutcome) (data : JVal) (e : PyErr)
    (h : generateBody net data = Except.error e) :
    generate net data =
      ⟨500, JVal.obj
        [("success", JVal.boolean false),
         ("error", JVal.strVal ("Erreur lors de la génération: " ++ e.message))]⟩ := by
  simp [generate, h]

theorem generateBody_not_truthy (net : NetOutcome) (data : JVal)
    (ht : data.isTruthy = false) :
    generateBody net data = Except.ok (err400resp "Aucune donnée fournie") := by
  simp [generateBody, ht]

theorem generateBody_extract_error (net : NetOutcome) (data : JVal) (e : PyErr)
    (ht : data.isTruthy = true) (hx : extractFields data = Except.error e) :
    generateBody net data = Except.error e := by
  simp [generateBody, ht, hx]

theorem generateBody_eq_afterExtract (net : NetOutcome) (data : JVal) (f : Fields)
    (ht : data.isTruthy = true) (hx : extractFields data = Except.ok f) :
    generateBody net data = afterExtract net f := by
  simp [generateBody, ht, hx]

theorem afterExtract_subject_empty (net : NetOutcome) (f : Fields)
    (hs : f.subject = "") :
    afterExtract net f = Except.ok (err400resp "Le sujet est requis") := by
  simp [afterExtract, hs]

theorem afterExtract_level_empty (net : NetOutcome) (f : Fields)
    (hs : f.subject ≠ "") (hl : f.level = "") :
    afterExtract net f = Except.ok (err400resp "Le niveau est requis") := by
  simp [afterExtract, hs, hl]

theorem afterExtract_style_empty (net : NetOutcome) (f : Fields)
    (hs : f.subject ≠ "") (hl : f.level ≠ "") (hst : f.learning_style = "") :
    afterExtract net f = Except.ok (err400resp "Le style d\x27apprentissage est requis") := by
  simp [afterExtract, hs, hl, hst]

theorem topicsValid_true_elim (v : JVal) (h : topicsValid v = true) :
    ∃ ts, v = JVal.arr ts ∧ ts.length ≠ 0 := by
  cases v <;> simp_all [topicsValid]

theorem afterExtract_topics_bad (net : NetOutcome) (f : Fields)
    (hs : f.subject ≠ "") (hl : f.level ≠ "") (hst : f.learning_style ≠ "")
    (htv : topicsValid f.topics = false) :
    afterExtract net f = Except.ok (err400resp "Veuillez sélectionner au moins un thème") := by
  cases hv : f.topics <;> simp_all [afterExtract, topicsValid]

theorem afterExtract_duration_bad (net : NetOutcome) (f : Fields) (ts : List JVal) (msg : String)
    (hs : f.subject ≠ "") (hl : f.level ≠ "") (hst : f.learning_style ≠ "")
    (htop : f.topics = JVal.arr ts) (hne : ts.length ≠ 0)
    (hd : durCheck f.durationV = Except.error msg) :
    afterExtract net f = Except.ok (err400resp msg) := by
  simp [afterExtract, hs, hl, hst, htop, hne, hd]

theorem afterExtract_success (net : NetOutcome) (f : Fields) (ts : List JVal)
    (dOpt : Option Int) (lesson : String)
    (hs : f.subject ≠ "") (hl : f.level ≠ "") (hst : f.learning_style ≠ "")
    (htop : f.topics = JVal.arr ts) (hne : ts.length ≠ 0)
    (hd : durCheck f.durationV = Except.ok dOpt)
    (hg : generate_lesson net f.subject f.level f.learning_style ts dOpt f.modelV = Except.ok lesson) :
    afterExtract net f = Except.ok
      ⟨200, JVal.obj
        [("success", JVal.boolean true),
         ("lesson", JVal.strVal lesson),
         ("subject", JVal.strVal f.subject),
         ("level", JVal.strVal f.level),
         ("learning_style", JVal.strVal f.learning_style),
         ("topics", JVal.arr ts),
         ("duration", durEcho dOpt)]⟩ := by
  simp [afterExtract, hs, hl, hst, htop, hne, hd, hg]

theorem afterExtract_pipeline_error (net : NetOutcome) (f : Fields) (ts : List JVal)
    (dOpt : Option Int) (e : PyErr)
    (hs : f.subject ≠ "") (hl : f.level ≠ "") (hst : f.learning_style ≠ "")
    (htop : f.topics = JVal.arr ts) (hne : ts.length ≠ 0)
    (hd : durCheck f.durationV = Except.ok dOpt)
    (hg : generate_lesson net f.subject f.level f.learning_style ts dOpt f.modelV = Except.error e) :
    afterExtract net f = Except.error e := by
  simp [afterExtract, hs, hl, hst, htop, hne, hd, hg]

theorem generate_not_truthy (net : NetOutcome) (data : JVal)
    (ht : data.isTruthy = false) :
    generate net data = err400resp "Aucune donnée fournie" :=
  generate_eq_of_body net data _ (generateBody_not_truthy net data ht)

theorem generate_extract_error (net : NetOutcome) (data : JVal) (e : PyErr)
    (ht : data.isTruthy = true) (hx : extractFields data = Except.error e) :
    generate net data =
      ⟨500, JVal.obj
        [("success", JVal.boolean false),
         ("error", JVal.strVal ("Erreur lors de la génération: " ++ e.message))]⟩ :=
  generate_eq_500 net data e (generateBody_extract_error net data e ht hx)

theorem generate_valid_eq (net : NetOutcome) (data : JVal) (f : Fields) (ts : List JVal)
    (dOpt : Option Int) (lesson : String)
    (ht : data.isTruthy = true) (hx : extractFields data = Except.ok f)
    (hs : f.subject ≠ "") (hl : f.level ≠ "") (hst : f.learning_style ≠ "")
    (htop : f.topics = JVal.arr ts) (hne : ts.length ≠ 0)
    (hd : durCheck f.durationV = Except.ok dOpt)
    (hg : generate_lesson net f.subject f.level f.learning_style ts dOpt f.modelV = Except.ok lesson) :
    generate net data =
      ⟨200, JVal.obj
        [("success", JVal.boolean true),
         ("lesson", JVal.strVal lesson),
         ("subject", JVal.strVal f.subject),
         ("level", JVal.strVal f.level),
         ("learning_style", JVal.strVal f.learning_style),
         ("topics", JVal.arr ts),
         ("duration", durEcho dOpt)]⟩ := by
  refine generate_eq_of_body net data _ ?_
  rw [generateBody_eq_afterExtract net data f ht hx]
  exact afterExtract_success net f ts dOpt lesson hs hl hst htop hne hd hg

theorem generate_pipeline_error_eq (net : NetOutcome) (data : JVal) (f : Fields) (ts : List JVal)
    (dOpt : Option Int) (e : PyErr)
    (ht : data.isTruthy = true) (hx : extractFields data = Except.ok f)
    (hs : f.subject ≠ "") (hl : f.level ≠ "") (hst : f.learning_style ≠ "")
    (htop : f.topics = JVal.arr ts) (hne : ts.length ≠ 0)
    (hd : durCheck f.durationV = Except.ok dOpt)
    (hg : generate_lesson net f.subject f.level f.learning_style ts dOpt f.modelV = Except.error e) :
    generate net data =
      ⟨500, JVal.obj
        [("success", JVal.boolean false),
         ("error", JVal.strVal ("Erreur lors de la génération: " ++ e.message))]⟩ := by
  refine generate_eq_500 net data e ?_
  rw [generateBody_eq_afterExtract net data f ht hx]
  exact afterExtract_pipeline_error net f ts dOpt e hs hl hst htop hne hd hg

theorem generate_passes_validation (net : NetOutcome) (data : JVal) (f : Fields) (ts : List JVal)
    (dOpt : Option Int)
    (ht : data.isTruthy = true) (hx : extractFields data = Except.ok f)
    (hs : f.subject ≠ "") (hl : f.level ≠ "") (hst : f.learning_style ≠ "")
    (htop : f.topics = JVal.arr ts) (hne : ts.length ≠ 0)
    (hd : durCheck f.durationV = Except.ok dOpt) :
    (generate net data).status = 200 ∨ (generate net data).status = 500 := by
  cases hg : generate_lesson net f.subject f.level f.learning_style ts dOpt f.modelV with
  | ok lesson =>
      left
      rw [generate_valid_eq net data f ts dOpt lesson ht hx hs hl hst htop hne hd hg]
  | error e =>
      right
      rw [generate_pipeline_error_eq net data f ts dOpt e ht hx hs hl hst htop hne hd hg]

theorem pyStrList_map_strVal (ss : List String) :
    pyStrList (ss.map JVal.strVal) = Except.ok ss := by
  induction ss with
  | nil => rfl
  | cons s ss ih => simp [pyStrList, ih]

theorem build_prompt_ok (subject level learning_style : String) (ts : List JVal)
    (dur : Option Int) (ss : List String) (h : pyStrList ts = Except.ok ss) :
    build_prompt subject level learning_style ts dur =
      Except.ok (renderPrompt subject level learning_style
        (if ts.isEmpty then "général" else String.intercalate ", " ss) dur) := by
  cases ts with
  | nil => simp [build_prompt]
  | cons t ts => simp [build_prompt, pyJoin, h, List.isEmpty]

theorem generate_lesson_net_ok (subject level learning_style : String) (ts : List JVal)
    (dur : Option Int) (modelV : JVal) (ss : List String) (content : String)
    (h : pyStrList ts = Except.ok ss) :
    generate_lesson (NetOutcome.ok content) subject level learning_style ts dur modelV =
      Except.ok content := by
  simp [generate_lesson, build_prompt_ok subject level learning_style ts dur ss h]

theorem generate_lesson_net_fail (subject level learning_style : String) (ts : List JVal)
    (dur : Option Int) (modelV : JVal) (ss : List String) (msg : String)
    (h : pyStrList ts = Except.ok ss) :
    generate_lesson (NetOutcome.fail msg) subject level learning_style ts dur modelV =
      Except.ok ("Erreur API: " ++ msg) := by
  simp [generate_lesson, build_prompt_ok subject level learning_style ts dur ss h]

theorem generate_lesson_join_error (net : NetOutcome) (subject level learning_style : String)
    (ts : List JVal) (dur : Option Int) (modelV : JVal) (e : PyErr)
    (hne : ts.length ≠ 0) (h : pyStrList ts = Except.error e) :
    generate_lesson net subject level learning_style ts dur modelV = Except.error e := by
  cases ts with
  | nil => simp at hne
  | cons t ts => simp [generate_lesson, build_prompt, pyJoin, h, List.isEmpty]

theorem generate_subject_empty (net : NetOutcome) (data : JVal) (f : Fields)
    (ht : data.isTruthy = true) (hx : extractFields data = Except.ok f)
    (hs : f.subject = "") :
    generate net data = err400resp "Le sujet est requis" := by
  refine generate_eq_of_body net data _ ?_
  rw [generateBody_eq_afterExtract net data f ht hx]
  exact afterExtract_subject_empty net f hs

theorem generate_level_empty (net : NetOutcome) (data : JVal) (f : Fields)
    (ht : data.isTruthy = true) (hx : extractFields data = Except.ok f)
    (hs : f.subject ≠ "") (hl : f.level = "") :
    generate net data = err400resp "Le niveau est requis" := by
  refine generate_eq_of_body net data _ ?_
  rw [generateBody_eq_afterExtract net data f ht hx]
  exact afterExtract_level_empty net f hs hl

theorem generate_style_empty (net : NetOutcome) (data : JVal) (f : Fields)
    (ht : data.isTruthy = true) (hx : extractFields data = Except.ok f)
    (hs : f.subject ≠ "") (hl : f.level ≠ "") (hst : f.learning_style = "") :
    generate net data = err400resp "Le style d\x27apprentissage est requis" := by
  refine generate_eq_of_body net data _ ?_
  rw [generateBody_eq_afterExtract net data f ht hx]
  exact afterExtract_style_empty net f hs hl hst

theorem generate_topics_bad (net : NetOutcome) (data : JVal) (f : Fields)
    (ht : data.isTruthy = true) (hx : extractFields data = Except.ok f)
    (hs : f.subject ≠ "") (hl : f.level ≠ "") (hst : f.learning_style ≠ "")
    (htv : topicsValid f.topics = false) :
    generate net data = err400resp "Veuillez sélectionner au moins un thème" := by
  refine generate_eq_of_body net data _ ?_
  rw [generateBody_eq_afterExtract net data f ht hx]
  exact afterExtract_topics_bad net f hs hl hst htv

theorem generate_duration_bad (net : NetOutcome) (data : JVal) (f : Fields) (ts : List JVal)
    (msg : String)
    (ht : data.isTruthy = true) (hx : extractFields data = Except.ok f)
    (hs : f.subject ≠ "") (hl : f.level ≠ "") (hst : f.learning_style ≠ "")
    (htop : f.topics = JVal.arr ts) (hne : ts.length ≠ 0)
    (hd : durCheck f.durationV = Except.error msg) :
    generate net data = err400resp msg := by
  refine generate_eq_of_body net data _ ?_
  rw [generateBody_eq_afterExtract net data f ht hx]
  exact afterExtract_duration_bad net f ts msg hs hl hst htop hne hd

/-! ## Claim theorems -/

/-- Claim C1: for every POST /api/generate request the handler runs the
validation checks in the fixed source order (falsy-body check realising the
non-null body requirement, then subject trimmed non-empty, level trimmed
non-empty, learning_style trimmed non-empty, topics a non-empty list, then
duration), the first failing check short-circuits (the later fields are
unconstrained in each conjunct), and every failing check yields status 400
with an error message. -/
theorem C1_validation_order (net : NetOutcome) (data : JVal) :
    (data.isTruthy = false → generate net data = err400resp "Aucune donnée fournie")
    ∧ (data.isTruthy = true → ∀ f, extractFields data = Except.ok f →
        (f.subject = "" → generate net data = err400resp "Le sujet est requis")
        ∧ (f.subject ≠ "" → f.level = "" →
            generate net data = err400resp "Le niveau est requis")
        ∧ (f.subject ≠ "" → f.level ≠ "" → f.learning_style = "" →
            generate net data = err400resp "Le style d\x27apprentissage est requis")
        ∧ (f.subject ≠ "" → f.level ≠ "" → f.learning_style ≠ "" →
            topicsValid f.topics = false →
            generate net data = err400resp "Veuillez sélectionner au moins un thème")
        ∧ (∀ msg, f.subject ≠ "" → f.level ≠ "" → f.learning_style ≠ "" →
            topicsValid f.topics = true → durCheck f.durationV = Except.error msg →
            generate net data = err400resp msg)) := by
  refine ⟨fun ht => generate_not_truthy net data ht, fun ht f hx => ⟨?_, ?_, ?_, ?_, ?_⟩⟩
  · exact fun hs => generate_subject_empty net data f ht hx hs
  · exact fun hs hl => generate_level_empty net data f ht hx hs hl
  · exact fun hs hl hst => generate_style_empty net data f ht hx hs hl hst
  · exact fun hs hl hst htv => generate_topics_bad net data f ht hx hs hl hst htv
  · intro msg hs hl hst htv hd
    obtain ⟨ts, htop, hne⟩ := topicsValid_true_elim f.topics htv
    exact generate_duration_bad net data f ts msg ht hx hs hl hst htop hne hd

/-- Witness for C1 at concrete inputs: a null body is rejected with the
no-data message, and a body whose subject trims to empty is rejected with
the subject message. -/
theorem C1_validation_order_witness :
    generate (NetOutcome.ok "x") JVal.null = err400resp "Aucune donnée fournie"
    ∧ generate (NetOutcome.ok "x") (JVal.obj [("subject", JVal.strVal "  ")])
        = err400resp "Le sujet est requis" := by
  constructor
  · exact (C1_validation_order (NetOutcome.ok "x") JVal.null).1 rfl
  · exact (((C1_validation_order (NetOutcome.ok "x")
      (JVal.obj [("subject", JVal.strVal "  ")])).2 rfl
      ⟨"", "", "", JVal.arr [], JVal.null, JVal.strVal DEFAULT_MODEL⟩ rfl).1) rfl

/-- Claim C2: when duration is present (not JSON null), the handler returns
400 unless it coerces through `int()` to a value in [15, 180]; the
non-numeric and out-of-range cases return 400 differing only in message;
and an in-range duration is never the cause of a rejection (the response
status is then 200 or 500, never 400). -/
theorem C2_duration_check (net : NetOutcome) (data : JVal) (f : Fields) (ts : List JVal)
    (ht : data.isTruthy = true) (hx : extractFields data = Except.ok f)
    (hs : f.subject ≠ "") (hl : f.level ≠ "") (hst : f.learning_style ≠ "")
    (htop : f.topics = JVal.arr ts) (hne : ts.length ≠ 0)
    (hnn : f.durationV.isNull = false) :
    (∀ e, pyInt f.durationV = Except.error e →
        generate net data = err400resp "La durée doit être un nombre valide")
    ∧ (∀ d, pyInt f.durationV = Except.ok d → (d < 15 ∨ 180 < d) →
        generate net data = err400resp "La durée doit être entre 15 et 180 minutes")
    ∧ (∀ d, pyInt f.durationV = Except.ok d → 15 ≤ d → d ≤ 180 →
        (generate net data).status ≠ 400) := by
  refine ⟨?_, ?_, ?_⟩
  · intro e he
    refine generate_duration_bad net data f ts _ ht hx hs hl hst htop hne ?_
    simp [durCheck, hnn, he]
  · intro d hd hrange
    refine generate_duration_bad net data f ts _ ht hx hs hl hst htop hne ?_
    have hcond : (d < 15 || 180 < d) = true := by
      rcases hrange with h | h <;> simp [h]
    simp [durCheck, hnn, hd, hcond]
  · intro d hd h15 h180
    have hcond : (d < 15 || 180 < d) = false := by
      simp only [Bool.or_eq_false_iff, decide_eq_false_iff_not, not_lt]
      exact ⟨h15, h180⟩
    have hdo : durCheck f.durationV = Except.ok (some d) := by
      simp [durCheck, hnn, hd, hcond]
    rcases generate_passes_validation net data f ts (some d) ht hx hs hl hst htop hne hdo with
      h | h <;> omega

/-- Claim C3: any transport or provider-side failure raised inside the
chat-completion request is caught inside generate_lesson and converted into
the plain-text string "Erreur API: " followed by the error, returned as the
result; consequently the handler still responds 200 with that string as the
lesson of a valid request, not with a structured error. -/
theorem C3_provider_failure_degrades (msg : String) :
    (∀ subject level learning_style topics dur modelV p,
        build_prompt subject level learning_style topics dur = Except.ok p →
        generate_lesson (NetOutcome.fail msg) subject level learning_style topics dur modelV
          = Except.ok ("Erreur API: " ++ msg))
    ∧ (∀ data f ts ss dOpt,
        data.isTruthy = true → extractFields data = Except.ok f →
        f.subject ≠ "" → f.level ≠ "" → f.learning_style ≠ "" →
        f.topics = JVal.arr ts → ts.length ≠ 0 →
        durCheck f.durationV = Except.ok dOpt →
        pyStrList ts = Except.ok ss →
        generate (NetOutcome.fail msg) data =
          ⟨200, JVal.obj
            [("success", JVal.boolean true),
             ("lesson", JVal.strVal ("Erreur API: " ++ msg)),
             ("subject", JVal.strVal f.subject),
             ("level", JVal.strVal f.level),
             ("learning_style", JVal.strVal f.learning_style),
             ("topics", JVal.arr ts),
             ("duration", durEcho dOpt)]⟩) := by
  constructor
  · intro subject level learning_style topics dur modelV p h
    simp [generate_lesson, h]
  · intro data f ts ss dOpt ht hx hs hl hst htop hne hd hj
    exact generate_valid_eq (NetOutcome.fail msg) data f ts dOpt _ ht hx hs hl hst htop hne hd
      (generate_lesson_net_fail f.subject f.level f.learning_style ts dOpt f.modelV ss msg hj)

/-- Witness for C3 at a concrete valid request: a provider failure with
message "connexion refusée" still yields a 200 response whose lesson is the
error text. -/
theorem C3_provider_failure_degrades_witness :
    generate (NetOutcome.fail "connexion refusée") exampleRequest =
      ⟨200, JVal.obj
        [("success", JVal.boolean true),
         ("lesson", JVal.strVal ("Erreur API: " ++ "connexion refusée")),
         ("subject", JVal.strVal "Mathématiques"),
         ("level", JVal.strVal "Lycée"),
         ("learning_style", JVal.strVal "Visuel"),
         ("topics", JVal.arr [JVal.strVal "Algèbre"]),
         ("duration", durEcho (some 60))]⟩ := by
  exact (C3_provider_failure_degrades "connexion refusée").2 exampleRequest
    ⟨"Mathématiques", "Lycée", "Visuel", JVal.arr [JVal.strVal "Algèbre"],
      JVal.intVal 60, JVal.strVal DEFAULT_MODEL⟩
    [JVal.strVal "Algèbre"] ["Algèbre"] (some 60)
    rfl rfl (by decide) (by decide) (by decide) rfl (by decide) rfl rfl

/-- Claim C4: a request failing any validation check gets its 400 response
without the pipeline or network call being invoked: the response of a
request answered with 400 is identical under every network oracle (so
nothing of the network call leaks into it), and its body is a bare
validation-error object, never the success or the 500 envelope. -/
theorem C4_validation_failure_no_pipeline (net net2 : NetOutcome) (data : JVal)
    (h : (generate net data).status = 400) :
    generate net2 data = generate net data
    ∧ ∃ msg, (generate net data).body = JVal.obj [("error", JVal.strVal msg)] := by
  cases ht : data.isTruthy with
  | false =>
      rw [generate_not_truthy net data ht, generate_not_truthy net2 data ht]
      exact ⟨rfl, _, rfl⟩
  | true =>
      cases hx : extractFields data with
      | error e =>
          rw [generate_extract_error net data e ht hx] at h
          simp at h
      | ok f =>
          by_cases hs : f.subject = ""
          · rw [generate_subject_empty net data f ht hx hs,
              generate_subject_empty net2 data f ht hx hs]
            exact ⟨rfl, _, rfl⟩
          · by_cases hl : f.level = ""
            · rw [generate_level_empty net data f ht hx hs hl,
                generate_level_empty net2 data f ht hx hs hl]
              exact ⟨rfl, _, rfl⟩
            · by_cases hst : f.learning_style = ""
              · rw [generate_style_empty net data f ht hx hs hl hst,
                  generate_style_empty net2 data f ht hx hs hl hst]
                exact ⟨rfl, _, rfl⟩
              · cases htv : topicsValid f.topics with
                | false =>
                    rw [generate_topics_bad net data f ht hx hs hl hst htv,
                      generate_topics_bad net2 data f ht hx hs hl hst htv]
                    exact ⟨rfl, _, rfl⟩
                | true =>
                    obtain ⟨ts, htop, hne⟩ := topicsValid_true_elim f.topics htv
                    cases hd : durCheck f.durationV with
                    | error msg =>
                        rw [generate_duration_bad net data f ts msg ht hx hs hl hst htop hne hd,
                          generate_duration_bad net2 data f ts msg ht hx hs hl hst htop hne hd]
                        exact ⟨rfl, _, rfl⟩
                    | ok dOpt =>
                        cases hg : generate_lesson net f.subject f.level f.learning_style ts dOpt f.modelV with
                        | ok lesson =>
                            rw [generate_valid_eq net data f ts dOpt lesson ht hx hs hl hst htop hne hd hg] at h
                            simp at h
                        | error e =>
                            rw [generate_pipeline_error_eq net data f ts dOpt e ht hx hs hl hst htop hne hd hg] at h
                            simp at h

/-- Witness for C4 at a concrete input: a request with an empty topics list
is answered 400 identically under a success oracle and a failure oracle,
with a bare error body. -/
theorem C4_validation_failure_no_pipeline_witness :
    generate (NetOutcome.fail "boom")
        (JVal.obj [("subject", JVal.strVal "S"), ("level", JVal.strVal "L"),
          ("learning_style", JVal.strVal "V"), ("topics", JVal.arr [])])
      = generate (NetOutcome.ok "contenu")
        (JVal.obj [("subject", JVal.strVal "S"), ("level", JVal.strVal "L"),
          ("learning_style", JVal.strVal "V"), ("topics", JVal.arr [])])
    ∧ ∃ msg, (generate (NetOutcome.ok "contenu")
        (JVal.obj [("subject", JVal.strVal "S"), ("level", JVal.strVal "L"),
          ("learning_style", JVal.strVal "V"), ("topics", JVal.arr [])])).body
        = JVal.obj [("error", JVal.strVal msg)] := by
  exact C4_validation_failure_no_pipeline (NetOutcome.ok "contenu") (NetOutcome.fail "boom")
    (JVal.obj [("subject", JVal.strVal "S"), ("level", JVal.strVal "L"),
      ("learning_style", JVal.strVal "V"), ("topics", JVal.arr [])]) rfl

/-- Witness for C2 at a concrete input: a request valid except for the
non-numeric duration string "abc" is rejected with 400 and the
not-a-number message. -/
theorem C2_duration_check_witness :
    generate (NetOutcome.ok "x")
        (JVal.obj [("subject", JVal.strVal "S"), ("level", JVal.strVal "L"),
          ("learning_style", JVal.strVal "V"), ("topics", JVal.arr [JVal.strVal "T"]),
          ("duration", JVal.strVal "abc")])
      = err400resp "La durée doit être un nombre valide" := by
  exact (C2_duration_check (NetOutcome.ok "x")
    (JVal.obj [("subject", JVal.strVal "S"), ("level", JVal.strVal "L"),
      ("learning_style", JVal.strVal "V"), ("topics", JVal.arr [JVal.strVal "T"]),
      ("duration", JVal.strVal "abc")])
    ⟨"S", "L", "V", JVal.arr [JVal.strVal "T"], JVal.strVal "abc", JVal.strVal DEFAULT_MODEL⟩
    [JVal.strVal "T"] rfl rfl (by decide) (by decide) (by decide) rfl (by decide) rfl).1 _ rfl

/-- Counterexample to C5 as stated: the request with subject " Maths "
(surrounding whitespace) is fully valid, but the success envelope echoes
the stripped value "Maths", which is not the input value, so the echoed
fields do not always match the input exactly. -/
theorem C5_success_envelope_counterexample :
    generate (NetOutcome.ok "Leçon")
        (JVal.obj [("subject", JVal.strVal " Maths "), ("level", JVal.strVal "Lycée"),
          ("learning_style", JVal.strVal "Visuel"), ("topics", JVal.arr [JVal.strVal "Algèbre"])])
      = ⟨200, JVal.obj
        [("success", JVal.boolean true),
         ("lesson", JVal.strVal "Leçon"),
         ("subject", JVal.strVal "Maths"),
         ("level", JVal.strVal "Lycée"),
         ("learning_style", JVal.strVal "Visuel"),
         ("topics", JVal.arr [JVal.strVal "Algèbre"]),
         ("duration", JVal.null)]⟩
    ∧ ("Maths" : String) ≠ " Maths " := ⟨rfl, by decide⟩

/-- Claim C5 (amended): for every valid request the success response is
status 200 with the envelope {success, lesson, subject, level,
learning_style, topics, duration} whose subject, level and learning_style
are the trimmed input strings, topics is echoed exactly, and duration is
the normalized integer (so the fields match the input exactly whenever the
input is already in normal form); in particular the example request of the
specification yields 200 with a non-empty lesson and exactly-echoed
fields. -/
theorem C5_success_envelope (net : NetOutcome) (data : JVal) (f : Fields) (ts : List JVal)
    (dOpt : Option Int) (lesson : String)
    (ht : data.isTruthy = true) (hx : extractFields data = Except.ok f)
    (hs : f.subject ≠ "") (hl : f.level ≠ "") (hst : f.learning_style ≠ "")
    (htop : f.topics = JVal.arr ts) (hne : ts.length ≠ 0)
    (hd : durCheck f.durationV = Except.ok dOpt)
    (hg : generate_lesson net f.subject f.level f.learning_style ts dOpt f.modelV = Except.ok lesson) :
    generate net data =
      ⟨200, JVal.obj
        [("success", JVal.boolean true),
         ("lesson", JVal.strVal lesson),
         ("subject", JVal.strVal f.subject),
         ("level", JVal.strVal f.level),
         ("learning_style", JVal.strVal f.learning_style),
         ("topics", JVal.arr ts),
         ("duration", durEcho dOpt)]⟩
    ∧ (∀ c, c ≠ "" →
        generate (NetOutcome.ok c) exampleRequest =
          ⟨200, JVal.obj
            [("success", JVal.boolean true),
             ("lesson", JVal.strVal c),
             ("subject", JVal.strVal "Mathématiques"),
             ("level", JVal.strVal "Lycée"),
             ("learning_style", JVal.strVal "Visuel"),
             ("topics", JVal.arr [JVal.strVal "Algèbre"]),
             ("duration", JVal.intVal 60)]⟩) := by
  constructor
  · exact generate_valid_eq net data f ts dOpt lesson ht hx hs hl hst htop hne hd hg
  · intro c _
    exact generate_valid_eq (NetOutcome.ok c) exampleRequest
      ⟨"Mathématiques", "Lycée", "Visuel", JVal.arr [JVal.strVal "Algèbre"],
        JVal.intVal 60, JVal.strVal DEFAULT_MODEL⟩
      [JVal.strVal "Algèbre"] (some 60) c
      rfl rfl (by decide) (by decide) (by decide) rfl (by decide) rfl
      (generate_lesson_net_ok "Mathématiques" "Lycée" "Visuel" [JVal.strVal "Algèbre"]
        (some 60) (JVal.strVal DEFAULT_MODEL) ["Algèbre"] c rfl)

/-- Witness for C5 at the example request of the specification with a
concrete non-empty generated lesson. -/
theorem C5_success_envelope_witness :
    generate (NetOutcome.ok "Bonne leçon") exampleRequest =
      ⟨200, JVal.obj
        [("success", JVal.boolean true),
         ("lesson", JVal.strVal "Bonne leçon"),
         ("subject", JVal.strVal "Mathématiques"),
         ("level", JVal.strVal "Lycée"),
         ("learning_style", JVal.strVal "Visuel"),
         ("topics", JVal.arr [JVal.strVal "Algèbre"]),
         ("duration", JVal.intVal 60)]⟩ := by
  exact (C5_success_envelope (NetOutcome.ok "Bonne leçon") exampleRequest
    ⟨"Mathématiques", "Lycée", "Visuel", JVal.arr [JVal.strVal "Algèbre"],
      JVal.intVal 60, JVal.strVal DEFAULT_MODEL⟩
    [JVal.strVal "Algèbre"] (some 60) "Bonne leçon"
    rfl rfl (by decide) (by decide) (by decide) rfl (by decide) rfl
    (generate_lesson_net_ok "Mathématiques" "Lycée" "Visuel" [JVal.strVal "Algèbre"]
      (some 60) (JVal.strVal DEFAULT_MODEL) ["Algèbre"] "Bonne leçon" rfl)).2
    "Bonne leçon" (by decide)

/-- Claim C6: prompt construction is a pure, deterministic function of
(subject, level, learning_style, topics, duration): build_prompt is
embedded as a pure function whose result depends on nothing but its five
arguments, so two renderings on the same arguments are the identical
string. -/
theorem C6_prompt_deterministic (subject level learning_style : String)
    (topics : List JVal) (dur : Option Int) :
    build_prompt subject level learning_style topics dur
      = build_prompt subject level learning_style topics dur := rfl

/-- Claim C7: for every learning_style string outside the fixed table
{Visuel, Auditif, Kinesthésique, Lecture/Écriture}, the style lookup of
build_prompt falls back to the visual variant instruction block; and a
non-empty unrecognized learning_style never causes a validation failure at
the handler (a request otherwise passing validation is never answered
400). -/
theorem C7_unknown_style_fallback (s : String)
    (h1 : s ≠ "Visuel") (h2 : s ≠ "Auditif") (h3 : s ≠ "Kinesthésique")
    (h4 : s ≠ "Lecture/Écriture") :
    style_instruction_of s = style_instruction_of "Visuel"
    ∧ (∀ net data f ts dOpt,
        data.isTruthy = true → extractFields data = Except.ok f →
        f.subject ≠ "" → f.level ≠ "" → f.learning_style = s → s ≠ "" →
        f.topics = JVal.arr ts → ts.length ≠ 0 →
        durCheck f.durationV = Except.ok dOpt →
        (generate net data).status ≠ 400) := by
  constructor
  · have e1 : (("Visuel" : String) == s) = false := beq_eq_false_iff_ne.mpr (Ne.symm h1)
    have e2 : (("Auditif" : String) == s) = false := beq_eq_false_iff_ne.mpr (Ne.symm h2)
    have e3 : (("Kinesthésique" : String) == s) = false := beq_eq_false_iff_ne.mpr (Ne.symm h3)
    have e4 : (("Lecture/Écriture" : String) == s) = false := beq_eq_false_iff_ne.mpr (Ne.symm h4)
    simp [style_instruction_of, style_instructions, List.find?, e1, e2, e3, e4]
  · intro net data f ts dOpt ht hx hs hl hsts hne0 htop hne hd
    have hst : f.learning_style ≠ "" := by rw [hsts]; exact hne0
    rcases generate_passes_validation net data f ts dOpt ht hx hs hl hst htop hne hd with
      h | h <;> omega

/-- Witness for C7 at a concrete input: the unknown style "Olfactif" gets
the visual instruction block, and a request using it is not rejected. -/
theorem C7_unknown_style_fallback_witness :
    style_instruction_of "Olfactif" = style_instruction_of "Visuel"
    ∧ (generate (NetOutcome.ok "x")
        (JVal.obj [("subject", JVal.strVal "S"), ("level", JVal.strVal "L"),
          ("learning_style", JVal.strVal "Olfactif"),
          ("topics", JVal.arr [JVal.strVal "T"])])).status ≠ 400 := by
  have h := C7_unknown_style_fallback "Olfactif" (by decide) (by decide) (by decide) (by decide)
  refine ⟨h.1, ?_⟩
  exact h.2 (NetOutcome.ok "x")
    (JVal.obj [("subject", JVal.strVal "S"), ("level", JVal.strVal "L"),
      ("learning_style", JVal.strVal "Olfactif"), ("topics", JVal.arr [JVal.strVal "T"])])
    ⟨"S", "L", "Olfactif", JVal.arr [JVal.strVal "T"], JVal.null, JVal.strVal DEFAULT_MODEL⟩
    [JVal.strVal "T"] none
    rfl rfl (by decide) (by decide) rfl (by decide) rfl (by decide) rfl

/-- Claim C8: for every list of topic strings, the rendered prompt carries
the topics joined with ", " in exactly their given order (String.intercalate
neither reorders nor deduplicates), with the non-empty list joined and the
empty list replaced by the fixed word. -/
theorem C8_topics_joined_in_order (subject level learning_style : String)
    (ss : List String) (dur : Option Int) :
    build_prompt subject level learning_style (ss.map JVal.strVal) dur =
      Except.ok (renderPrompt subject level learning_style
        (if ss.isEmpty then "général" else String.intercalate ", " ss) dur) := by
  have h := build_prompt_ok subject level learning_style (ss.map JVal.strVal) dur ss
    (pyStrList_map_strVal ss)
  rw [h]
  cases ss <;> simp [List.isEmpty]

theorem pyStrip_not_str (v : JVal) (h : isStr v = false) :
    ∃ e, pyStrip v = Except.error e := by
  cases v with
  | strVal s => simp [isStr] at h
  | null => exact ⟨_, rfl⟩
  | boolean b => exact ⟨_, rfl⟩
  | intVal n => exact ⟨_, rfl⟩
  | floatVal q => exact ⟨_, rfl⟩
  | arr xs => exact ⟨_, rfl⟩
  | obj kvs => exact ⟨_, rfl⟩

theorem obj_truthy_of_find (kvs : List (String × JVal)) (k : String) (v : JVal)
    (hv : dictFind kvs k = some v) : (JVal.obj kvs).isTruthy = true := by
  cases kvs with
  | nil => simp [dictFind, List.find?] at hv
  | cons a l => simp [JVal.isTruthy, List.isEmpty]

theorem extractFields_subject_bad (kvs : List (String × JVal)) (v : JVal)
    (hv : dictFind kvs "subject" = some v) (h : isStr v = false) :
    ∃ e, extractFields (JVal.obj kvs) = Except.error e := by
  obtain ⟨e, he⟩ := pyStrip_not_str v h
  refine ⟨e, ?_⟩
  unfold extractFields
  simp [pyGet, dictGetD, hv, he]

theorem pyStrip_strVal (s : String) : pyStrip (JVal.strVal s) = Except.ok (stripStr s) := rfl

theorem extractFields_level_bad (kvs : List (String × JVal)) (s : String) (v : JVal)
    (hsv : dictFind kvs "subject" = some (JVal.strVal s))
    (hlv : dictFind kvs "level" = some v) (h : isStr v = false) :
    ∃ e, extractFields (JVal.obj kvs) = Except.error e := by
  obtain ⟨e, he⟩ := pyStrip_not_str v h
  refine ⟨e, ?_⟩
  unfold extractFields
  simp [pyGet, dictGetD, hsv, hlv, pyStrip_strVal, he]

theorem extractFields_style_bad (kvs : List (String × JVal)) (s t : String) (v : JVal)
    (hsv : dictFind kvs "subject" = some (JVal.strVal s))
    (hlv : dictFind kvs "level" = some (JVal.strVal t))
    (hstv : dictFind kvs "learning_style" = some v) (h : isStr v = false) :
    ∃ e, extractFields (JVal.obj kvs) = Except.error e := by
  obtain ⟨e, he⟩ := pyStrip_not_str v h
  refine ⟨e, ?_⟩
  unfold extractFields
  simp [pyGet, dictGetD, hsv, hlv, hstv, pyStrip_strVal, he]

/-- Claim C9: a JSON-object body in which subject, level or learning_style
is present but not a string raises at the strip calls (which run before the
400 validations), and a validated topics list containing a non-string
element raises at the join inside build_prompt; in both cases the generic
exception handler answers 500, never a 400 validation error. -/
theorem C9_wrong_types_give_500 (net : NetOutcome) :
    (∀ data e, data.isTruthy = true → extractFields data = Except.error e →
        (generate net data).status = 500)
    ∧ (∀ kvs v, dictFind kvs "subject" = some v → isStr v = false →
        (generate net (JVal.obj kvs)).status = 500)
    ∧ (∀ kvs s v, dictFind kvs "subject" = some (JVal.strVal s) →
        dictFind kvs "level" = some v → isStr v = false →
        (generate net (JVal.obj kvs)).status = 500)
    ∧ (∀ kvs s t v, dictFind kvs "subject" = some (JVal.strVal s) →
        dictFind kvs "level" = some (JVal.strVal t) →
        dictFind kvs "learning_style" = some v → isStr v = false →
        (generate net (JVal.obj kvs)).status = 500)
    ∧ (∀ data f ts dOpt e, data.isTruthy = true → extractFields data = Except.ok f →
        f.subject ≠ "" → f.level ≠ "" → f.learning_style ≠ "" →
        f.topics = JVal.arr ts → ts.length ≠ 0 →
        durCheck f.durationV = Except.ok dOpt →
        pyStrList ts = Except.error e →
        (generate net data).status = 500) := by
  refine ⟨?_, ?_, ?_, ?_, ?_⟩
  · intro data e ht hx
    rw [generate_extract_error net data e ht hx]
  · intro kvs v hv h
    obtain ⟨e, hx⟩ := extractFields_subject_bad kvs v hv h
    rw [generate_extract_error net _ e (obj_truthy_of_find kvs _ v hv) hx]
  · intro kvs s v hsv hlv h
    obtain ⟨e, hx⟩ := extractFields_level_bad kvs s v hsv hlv h
    rw [generate_extract_error net _ e (obj_truthy_of_find kvs _ v hlv) hx]
  · intro kvs s t v hsv hlv hstv h
    obtain ⟨e, hx⟩ := extractFields_style_bad kvs s t v hsv hlv hstv h
    rw [generate_extract_error net _ e (obj_truthy_of_find kvs _ v hstv) hx]
  · intro data f ts dOpt e ht hx hs hl hst htop hne hd hj
    rw [generate_pipeline_error_eq net data f ts dOpt e ht hx hs hl hst htop hne hd
      (generate_lesson_join_error net f.subject f.level f.learning_style ts dOpt f.modelV e hne hj)]

/-- Witness for C9 at concrete inputs: a numeric subject gives 500, and a
topics list holding a number inside an otherwise valid request gives
500. -/
theorem C9_wrong_types_give_500_witness :
    (generate (NetOutcome.ok "x") (JVal.obj [("subject", JVal.intVal 5)])).status = 500
    ∧ (generate (NetOutcome.ok "x")
        (JVal.obj [("subject", JVal.strVal "S"), ("level", JVal.strVal "L"),
          ("learning_style", JVal.strVal "V"),
          ("topics", JVal.arr [JVal.intVal 3])])).status = 500 := by
  constructor
  · exact (C9_wrong_types_give_500 (NetOutcome.ok "x")).2.1
      [("subject", JVal.intVal 5)] (JVal.intVal 5) rfl rfl
  · exact (C9_wrong_types_give_500 (NetOutcome.ok "x")).2.2.2.2
      (JVal.obj [("subject", JVal.strVal "S"), ("level", JVal.strVal "L"),
        ("learning_style", JVal.strVal "V"), ("topics", JVal.arr [JVal.intVal 3])])
      ⟨"S", "L", "V", JVal.arr [JVal.intVal 3], JVal.null, JVal.strVal DEFAULT_MODEL⟩
      [JVal.intVal 3] none _
      rfl rfl (by decide) (by decide) (by decide) rfl (by decide) rfl rfl

/-- Claim C10: a present duration is normalized by int() truncation before
the range check and before the echo: whenever the supplied duration value
coerces to an integer d with 15 <= d <= 180, the request is accepted and
the duration echoed in the 200 envelope is the integer d, regardless of the
shape (float, numeric string, int) of the supplied value. -/
theorem C10_duration_normalization (net : NetOutcome) (data : JVal) (f : Fields)
    (ts : List JVal) (d : Int) (lesson : String)
    (ht : data.isTruthy = true) (hx : extractFields data = Except.ok f)
    (hs : f.subject ≠ "") (hl : f.level ≠ "") (hst : f.learning_style ≠ "")
    (htop : f.topics = JVal.arr ts) (hne : ts.length ≠ 0)
    (hnn : f.durationV.isNull = false)
    (hpi : pyInt f.durationV = Except.ok d) (h15 : 15 ≤ d) (h180 : d ≤ 180)
    (hg : generate_lesson net f.subject f.level f.learning_style ts (some d) f.modelV
        = Except.ok lesson) :
    generate net data =
      ⟨200, JVal.obj
        [("success", JVal.boolean true),
         ("lesson", JVal.strVal lesson),
         ("subject", JVal.strVal f.subject),
         ("level", JVal.strVal f.level),
         ("learning_style", JVal.strVal f.learning_style),
         ("topics", JVal.arr ts),
         ("duration", JVal.intVal d)]⟩ := by
  have hcond : (d < 15 || 180 < d) = false := by
    simp only [Bool.or_eq_false_iff, decide_eq_false_iff_not, not_lt]
    exact ⟨h15, h180⟩
  have hdo : durCheck f.durationV = Except.ok (some d) := by
    simp [durCheck, hnn, hpi, hcond]
  have h := generate_valid_eq net data f ts (some d) lesson ht hx hs hl hst htop hne hdo hg
  simpa [durEcho] using h

/-- Witness for C10 at a concrete input: the float duration 180.9 (the
rational 1809/10) is truncated to 180, accepted, and echoed as the integer
180, a value different from the one supplied. -/
theorem C10_duration_normalization_witness :
    generate (NetOutcome.ok "L")
        (JVal.obj [("subject", JVal.strVal "Histoire"), ("level", JVal.strVal "Collège"),
          ("learning_style", JVal.strVal "Visuel"), ("topics", JVal.arr [JVal.strVal "Rome"]),
          ("duration", JVal.floatVal (Rat.divInt 1809 10))])
      = ⟨200, JVal.obj
        [("success", JVal.boolean true),
         ("lesson", JVal.strVal "L"),
         ("subject", JVal.strVal "Histoire"),
         ("level", JVal.strVal "Collège"),
         ("learning_style", JVal.strVal "Visuel"),
         ("topics", JVal.arr [JVal.strVal "Rome"]),
         ("duration", JVal.intVal 180)]⟩
    ∧ JVal.floatVal (Rat.divInt 1809 10) ≠ JVal.intVal 180 := by
  constructor
  · exact C10_duration_normalization (NetOutcome.ok "L")
      (JVal.obj [("subject", JVal.strVal "Histoire"), ("level", JVal.strVal "Collège"),
        ("learning_style", JVal.strVal "Visuel"), ("topics", JVal.arr [JVal.strVal "Rome"]),
        ("duration", JVal.floatVal (Rat.divInt 1809 10))])
      ⟨"Histoire", "Collège", "Visuel", JVal.arr [JVal.strVal "Rome"],
        JVal.floatVal (Rat.divInt 1809 10), JVal.strVal DEFAULT_MODEL⟩
      [JVal.strVal "Rome"] 180 "L"
      rfl rfl (by decide) (by decide) (by decide) rfl (by decide) rfl rfl
      (by decide) (by decide) rfl
  · intro h
    exact JVal.noConfusion h
